import Mathlib

/-
Verification of the caddy-waf middleware (package caddywaf) against its
natural-language specification.  The Go sources are shallowly embedded:
pure functions become Lean functions, the mutable per-request / per-module
state is passed explicitly, and the external net/http response writer is
modelled as an explicit record with Go's documented write semantics
(first WriteHeader wins; the header map is snapshotted at that moment).
-/

/-! ## WAFState and basic data (src/types.go) -/

/-- Per-request mutable WAF state (src/types.go, struct WAFState). -/
structure WAFState where
  TotalScore : Int
  Blocked : Bool
  StatusCode : Nat
  ResponseWritten : Bool
deriving Repr, DecidableEq

/-- Custom per-status block response (src/types.go, struct CustomBlockResponse).
The Headers map is modelled as an association list. -/
structure CustomBlockResponse where
  StatusCode : Nat
  Headers : List (String × String)
  Body : String
deriving Repr, DecidableEq

/-! ## Model of the net/http ResponseWriter (external interface)

Go's net/http contract: the first call to WriteHeader fixes the sent status
and snapshots the header map; later WriteHeader calls are ignored
(net/http logs a superfluous-call warning); Write triggers an implicit
WriteHeader(200) if none happened yet.  Headers mutated after the status
was written are not part of the sent response. -/

structure HttpResponseWriter where
  headers : List (String × String)
  status : Option Nat
  sentHeaders : List (String × String)
  bodyBytes : String
deriving Repr, DecidableEq

/-- Header().Set(key, value): replace any existing entry for the key. -/
def setHeader (w : HttpResponseWriter) (key value : String) : HttpResponseWriter :=
  { w with headers := (w.headers.filter (fun kv => kv.1 ≠ key)) ++ [(key, value)] }

/-- WriteHeader(code): first write wins, snapshotting the header map. -/
def writeHeader (w : HttpResponseWriter) (code : Nat) : HttpResponseWriter :=
  match w.status with
  | some _ => w
  | none => { w with status := some code, sentHeaders := w.headers }

/-- Write(bytes): implicit WriteHeader(200) when no status was written yet,
then append to the body. -/
def writeBody (w : HttpResponseWriter) (s : String) : HttpResponseWriter :=
  let w' := writeHeader w 200
  { w' with bodyBytes := w'.bodyBytes ++ s }

/-- A fresh response writer, before anything has been written. -/
def newWriter : HttpResponseWriter :=
  { headers := [], status := none, sentHeaders := [], bodyBytes := "" }

/-! ## helpers.go -/

/-- Result of os.Stat (external): success carries IsDir; failure is either
the not-exist error recognised by os.IsNotExist, or any other error
(e.g. permission denied), in which case the returned FileInfo is nil. -/
inductive StatResult where
  | ok (isDir : Bool)
  | errNotExist
  | errOther
deriving Repr, DecidableEq

/-- src/helpers.go fileExists, lines 9-19.  The ambient file system is the
`stat` oracle.  `none` models the Go panic that occurs when `info.IsDir()`
is invoked on the nil FileInfo returned together with a stat error that
os.IsNotExist does not recognise. -/
def fileExists (stat : String → StatResult) (path : String) : Option Bool :=
  if path = "" then
    some false
  else
    match stat path with
    | .errNotExist => some false
    | .ok d => some (!d)
    | .errOther => none

/-- Executable character-list string helpers (models of the Go standard
library string functions used by the sources; written over `String.data`
by structural recursion so they evaluate inside the kernel). -/

def isSpaceChar (c : Char) : Bool :=
  c = ' ' || c = '\t' || c = '\n' || c = '\r'

/-- strings.TrimSpace. -/
def strTrim (s : String) : String :=
  String.mk (((s.data.dropWhile isSpaceChar).reverse.dropWhile isSpaceChar).reverse)

/-- Split a character list at every occurrence of the separator. -/
def splitOnChar (c : Char) : List Char → List (List Char)
  | [] => [[]]
  | x :: xs =>
    if x = c then [] :: splitOnChar c xs
    else
      match splitOnChar c xs with
      | [] => [[x]]
      | y :: ys => (x :: y) :: ys

/-- strings.Split for a single-character separator. -/
def strSplitOnChar (s : String) (c : Char) : List String :=
  (splitOnChar c s.data).map String.mk

/-- strings.HasPrefix(s, "#"). -/
def startsWithHash (s : String) : Bool :=
  match s.data with
  | c :: _ => c = '#'
  | [] => false

/-- strings.ToLower (sufficient for host names). -/
def strToLower (s : String) : String :=
  String.mk (s.data.map Char.toLower)

def digitsToNatAux : List Char → Nat → Nat
  | [], acc => acc
  | c :: cs, acc => digitsToNatAux cs (acc * 10 + (c.toNat - 48))

/-- Parse a non-empty all-digit decimal string. -/
def decStrToNat (s : String) : Option Nat :=
  if s.data ≠ [] && s.data.all Char.isDigit then some (digitsToNatAux s.data 0)
  else none

/-- strings.Count for a single-character substring. -/
def countChar (s : String) (c : Char) : Nat :=
  (s.data.filter (fun x => x = c)).length

/-- src/helpers.go isIPv4, lines 22-24. -/
def isIPv4 (addr : String) : Bool :=
  countChar addr ':' < 2

/-- src/helpers.go appendCIDR, lines 27-36: unconditionally append /32
(fewer than two colons) or /64 (otherwise) to the input string. -/
def appendCIDR (ip : String) : String :=
  if countChar ip ':' < 2 then ip ++ "/32" else ip ++ "/64"

/-! ## Model of netip.ParsePrefix (external library)

netip.ParsePrefix accepts exactly `addr/bits` where addr is one valid IP
address and bits is a decimal number within the family's bit size.  The
address validators below are an executable approximation of the external
parser; what matters for the claims is that valid bare addresses followed
by a single valid suffix parse, and that strings with zero or two or more
slashes are rejected. -/

def validIPv4 (s : String) : Bool :=
  let parts := strSplitOnChar s '.'
  parts.length = 4 &&
    parts.all (fun p =>
      p.data.length > 0 && p.data.length ≤ 3 &&
      p.data.all Char.isDigit && ((decStrToNat p).getD 256) ≤ 255)

def isHexDigitChar (c : Char) : Bool :=
  c.isDigit || ('a' ≤ c && c ≤ 'f') || ('A' ≤ c && c ≤ 'F')

def validIPv6 (s : String) : Bool :=
  s.data.length > 1 && countChar s ':' ≥ 2 &&
    s.data.all (fun c => isHexDigitChar c || c = ':' || c = '.')

/-- Model of netip.ParsePrefix: `addr/bits` with a family-appropriate bit
bound; anything else (in particular a string containing two slashes) is a
parse error, returned as `none`. -/
def parsePrefixModel (s : String) : Option (String × Nat) :=
  match strSplitOnChar s '/' with
  | [addr, bits] =>
    match decStrToNat bits with
    | none => none
    | some b =>
      if validIPv4 addr && decide (b ≤ 32) then some (addr, b)
      else if validIPv6 addr && decide (b ≤ 128) then some (addr, b)
      else none
  | _ => none

/-! ## IP blacklist loading (src/caddywaf.go loadIPBlacklist, lines 469-491) -/

/-- Modelled from the spec: BlacklistLoader.LoadIPBlacklistFromFile is not
under src/.  Spec section 6: one entry per line; blank lines and lines
starting with # are ignored; entries are bare IPs or explicit prefixes. -/
def loadIPBlacklistEntries (fileLines : List String) : List String :=
  (fileLines.map strTrim).filter (fun l => l ≠ "" && ! startsWithHash l)

/-- The conversion loop of src/caddywaf.go loadIPBlacklist, lines 481-489:
every collected entry is passed through appendCIDR and then
netip.ParsePrefix; entries that fail to parse are skipped with a warning;
successfully parsed prefixes are inserted into the trie (modelled as the
list of inserted prefixes). -/
def convertEntriesToTrie (entries : List String) : List (String × Nat) :=
  entries.foldl
    (fun acc ip =>
      match parsePrefixModel (appendCIDR ip) with
      | none => acc
      | some p => acc ++ [p])
    []

/-- End-to-end content of the IP trie produced from the lines of a
blacklist file. -/
def loadIPBlacklistFromLines (fileLines : List String) : List (String × Nat) :=
  convertEntriesToTrie (loadIPBlacklistEntries fileLines)

/-- Modelled from the spec: BlacklistLoader.LoadDNSBlacklistFromFile is not
under src/.  Spec section 6: one host per line, lowercased; blank lines
and #-prefixed lines ignored. -/
def loadDNSBlacklistEntries (fileLines : List String) : List String :=
  ((fileLines.map strTrim).filter
    (fun l => l ≠ "" && ! startsWithHash l)).map strToLower

/-! ## Middleware configuration state (src/types.go, struct Middleware)

Only the fields the claims are about are embedded.  The Go nil map for
CustomResponses is `none`; a non-nil map is `some` of an association
list.  The ipBlacklist trie is modelled as the list of inserted prefixes
and the dnsBlacklist set as a list of hosts. -/

structure Middleware where
  IPBlacklistFile : String
  DNSBlacklistFile : String
  AnomalyThreshold : Int
  CustomResponses : Option (List (Nat × CustomBlockResponse))
  ipBlacklist : List (String × Nat)
  dnsBlacklist : List String
deriving Repr, DecidableEq

/-! ## allowRequest and blockRequest (src/response.go, lines 11-50) -/

/-- src/response.go allowRequest, lines 12-18: unconditionally clear the
state (the metrics increment has no observable effect on the state or
the response). -/
def allowRequest (state : WAFState) : WAFState :=
  { state with Blocked := false, StatusCode := 200, ResponseWritten := false }

/-- The state mutation performed at the top of src/response.go
blockRequest, lines 23-25. -/
def blockRequestState (statusCode : Nat) (state : WAFState) : WAFState :=
  { state with Blocked := true, StatusCode := statusCode, ResponseWritten := true }

/-- Modelled from the spec: writeCustomResponse is not under src/.  Spec
section 4.10: "If a custom_responses map contains an entry for the status
code, use its StatusCode, headers, and body instead."  The model sets the
entry's headers, writes its status code and writes its body; a status code
with no entry writes nothing. -/
def writeCustomResponse (customResponses : List (Nat × CustomBlockResponse))
    (w : HttpResponseWriter) (statusCode : Nat) : HttpResponseWriter :=
  match customResponses.lookup statusCode with
  | none => w
  | some resp =>
    let w1 := resp.Headers.foldl (fun acc kv => setHeader acc kv.1 kv.2) w
    let w2 := writeHeader w1 resp.StatusCode
    writeBody w2 resp.Body

/-- src/response.go blockRequest, lines 21-50: set the state flags, then
unconditionally set Content-Type: text/plain and write the status header;
then, if the CustomResponses map is non-nil, delegate to
writeCustomResponse, else write the default plain-text body.  Logging and
metric increments have no observable effect on state or response. -/
def blockRequest (m : Middleware) (state : WAFState) (w : HttpResponseWriter)
    (statusCode : Nat) (reason : String) : WAFState × HttpResponseWriter :=
  let state1 := blockRequestState statusCode state
  let w1 := setHeader w "Content-Type" "text/plain"
  let w2 := writeHeader w1 statusCode
  let w3 :=
    match m.CustomResponses with
    | some cr => writeCustomResponse cr w2 state1.StatusCode
    | none => writeBody w2 ("Request blocked by WAF. Reason: " ++ reason)
  (state1, w3)

/-! ## responseRecorder (src/response.go, lines 52-102) -/

/-- src/response.go responseRecorder: wraps a ResponseWriter, buffers the
body, tracks the status code (0 = not explicitly set) and whether a write
happened. -/
structure responseRecorder where
  wrapped : HttpResponseWriter
  body : String
  statusCode : Nat
  written : Bool
deriving Repr, DecidableEq

/-- src/response.go NewResponseRecorder, lines 61-68. -/
def NewResponseRecorder (w : HttpResponseWriter) : responseRecorder :=
  { wrapped := w, body := "", statusCode := 0, written := false }

/-- src/response.go responseRecorder.WriteHeader, lines 71-74: record the
code and forward to the wrapped writer. -/
def responseRecorder.WriteHeader (r : responseRecorder) (code : Nat) : responseRecorder :=
  { r with statusCode := code, wrapped := writeHeader r.wrapped code }

/-- src/response.go responseRecorder.StatusCode, lines 87-92. -/
def responseRecorder.StatusCode (r : responseRecorder) : Nat :=
  if r.statusCode = 0 then 200 else r.statusCode

/-- src/response.go responseRecorder.BodyString, lines 82-84. -/
def responseRecorder.BodyString (r : responseRecorder) : String :=
  r.body

/-- src/response.go responseRecorder.Write, lines 95-102: default the
status to 200 on the first write if unset (forwarding that WriteHeader),
append to the internal buffer only, and return bytes.Buffer's result
(length written, nil error). -/
def responseRecorder.Write (r : responseRecorder) (b : String) :
    responseRecorder × Nat × Option String :=
  let r1 := if r.statusCode = 0 ∧ r.written = false then r.WriteHeader 200 else r
  let r2 := { r1 with body := r1.body ++ b, written := true }
  (r2, b.length, none)

/-! ## ReloadConfig (src/caddywaf.go, lines 437-467) -/

/-- Content of a configured file as the load functions observe it:
missing (os.Stat reports not-exist), readable lines, or a read error. -/
inductive FileContent where
  | absent
  | avail (fileLines : List String)
  | readError (e : String)
deriving Repr, DecidableEq

/-- src/caddywaf.go loadIPBlacklist, lines 469-491: a missing file is
skipped with a warning (leaving the freshly created trie empty), a read
error is propagated, and otherwise the trie holds the converted entries. -/
def loadIPBlacklistGo (fc : FileContent) : Except String (List (String × Nat)) :=
  match fc with
  | .absent => .ok []
  | .readError e => .error e
  | .avail ls => .ok (loadIPBlacklistFromLines ls)

/-- src/caddywaf.go loadDNSBlacklist, lines 493-504: same skip/propagate
shape for the DNS host set. -/
def loadDNSBlacklistGo (fc : FileContent) : Except String (List String) :=
  match fc with
  | .absent => .ok []
  | .readError e => .error e
  | .avail ls => .ok (loadDNSBlacklistEntries ls)

/-- Environment of one ReloadConfig invocation: what the two blacklist
files contain and whether the (out-of-scope) rule load succeeds. -/
structure ReloadEnv where
  ipFile : FileContent
  dnsFile : FileContent
  rulesError : Option String
deriving Repr, DecidableEq

/-- src/caddywaf.go ReloadConfig, lines 437-467: build a new IP trie and
swap it in on success (`m.ipBlacklist = newIPBlacklist`), returning early
on failure; then the same for the DNS set; then reload the rules.  The
returned pair is the middleware state after the call (Go mutates the
receiver in place) and the error, if any. -/
def ReloadConfig (m : Middleware) (env : ReloadEnv) : Middleware × Option String :=
  let ipRes : Except String Middleware :=
    if m.IPBlacklistFile = "" then .ok m
    else
      match loadIPBlacklistGo env.ipFile with
      | .error e => .error ("failed to reload IP blacklist: " ++ e)
      | .ok t => .ok { m with ipBlacklist := t }
  match ipRes with
  | .error e => (m, some e)
  | .ok m1 =>
    let dnsRes : Except String Middleware :=
      if m1.DNSBlacklistFile = "" then .ok m1
      else
        match loadDNSBlacklistGo env.dnsFile with
        | .error e => .error ("failed to reload DNS blacklist: " ++ e)
        | .ok d => .ok { m1 with dnsBlacklist := d }
    match dnsRes with
    | .error e => (m1, some e)
    | .ok m2 =>
      match env.rulesError with
      | some e => (m2, some ("failed to reload rules: " ++ e))
      | none => (m2, none)

/-! ## Phase engine (spec-modelled) -/

/-- Modelled from the spec: ServeHTTP and the per-phase handlers are not
under src/.  Spec sections 4.4 and 4.11: a phase either latches a block
(spec-abstracted here as an optional block status code computed from the
current state) via src/response.go blockRequest's state mutation, or
leaves the state alone; a latched request does not enter later phases. -/
def phaseStep (d : WAFState → Option Nat) (s : WAFState) : WAFState :=
  if s.Blocked then s
  else
    match d s with
    | some code => blockRequestState code s
    | none => s

/-- Modelled from the spec: the terminal step of the request pipeline.
Spec section 4.11: src/response.go allowRequest runs only when the request
reaches DONE unblocked; a blocked request keeps its state. -/
def finishRequest (s : WAFState) : WAFState :=
  if s.Blocked then s else allowRequest s

/-- The sequence of WAFState values after each engine operation of one
request: one entry per phase executed, then the entry of the terminal
allow/keep step. -/
def engineTrace (ds : List (WAFState → Option Nat)) (s : WAFState) : List WAFState :=
  match ds with
  | [] => [finishRequest s]
  | d :: rest => phaseStep d s :: engineTrace rest (phaseStep d s)

/-! ## Rule cache and rule loading (src/types.go, lines 164-186) -/

/-- The RuleCache of src/types.go modelled as an association list from the
cache key to the identity of a compiled regex object.  Distinct calls to
regexp.Compile return distinct objects, modelled by an allocation counter:
`nextRegex` is the identity the next compilation will allocate. -/
structure RuleCacheState where
  entries : List (String × Nat)
  nextRegex : Nat
deriving Repr, DecidableEq

/-- Reading a Go map modelled as an association list. -/
def assocFind : List (String × Nat) → String → Option Nat
  | [], _ => none
  | kv :: t, k => if kv.1 = k then some kv.2 else assocFind t k

/-- src/types.go RuleCache.Get, lines 174-179 (the key parameter is named
ruleID in the source). -/
def ruleCacheGet (c : RuleCacheState) (ruleID : String) : Option Nat :=
  assocFind c.entries ruleID

/-- src/types.go RuleCache.Set, lines 182-186: Go map assignment replaces
any previous entry for the key. -/
def ruleCacheSet (c : RuleCacheState) (ruleID : String) (r : Nat) : RuleCacheState :=
  { c with entries := (c.entries.filter (fun kv => kv.1 ≠ ruleID)) ++ [(ruleID, r)] }

/-- A rule as loaded: its ID, its pattern source, and the identity of the
compiled regex object its `regex` field references. -/
structure LoadedRule where
  id : String
  pattern : String
  regex : Nat
deriving Repr, DecidableEq

/-- Modelled from the spec: loadRules is not under src/.  Spec section 2
describes the Rule Cache as a "thread-safe mapping from rule ID to
compiled regex; dedup across reloads", matching src/types.go whose
RuleCache.Get/Set key parameter is named ruleID and whose test exercises
the cache with a rule-ID key; compilation goes through the cache (spec
section 4.3): a cache hit on the rule's ID reuses the cached regex,
a miss compiles the pattern (allocating a fresh regex object) and stores
it under the rule's ID. -/
def loadRulesModel : List (String × String) → RuleCacheState →
    List LoadedRule × RuleCacheState
  | [], c => ([], c)
  | (rid, pat) :: rest, c =>
    match ruleCacheGet c rid with
    | some r =>
      (⟨rid, pat, r⟩ :: (loadRulesModel rest c).1, (loadRulesModel rest c).2)
    | none =>
      (⟨rid, pat, c.nextRegex⟩ ::
          (loadRulesModel rest
            (ruleCacheSet { c with nextRegex := c.nextRegex + 1 } rid c.nextRegex)).1,
        (loadRulesModel rest
          (ruleCacheSet { c with nextRegex := c.nextRegex + 1 } rid c.nextRegex)).2)

/-! ## Metrics endpoint (src/caddywaf.go handleMetricsRequest, lines 527-570) -/

/-- JSON values occurring in the metrics object. -/
inductive MetricValue where
  | int (n : Int)
  | str (s : String)
  | strMap (m : List (String × Int))
  | natMap (m : List (Nat × Int))
deriving Repr, DecidableEq

/-- The point-in-time counter values handleMetricsRequest reads from the
middleware; the rate limiter is nil (`none`) or carries its
(GetTotalRequests, GetBlockedRequests) pair. -/
structure MetricsSnapshot where
  totalRequests : Int
  blockedRequests : Int
  allowedRequests : Int
  ruleHits : List (String × Int)
  ruleHitsByPhase : List (Nat × Int)
  geoIPBlocked : Int
  ipBlacklistBlockCount : Int
  dnsBlacklistBlockCount : Int
  rateLimiter : Option (Int × Int)
deriving Repr, DecidableEq

/-- The metrics map built in src/caddywaf.go, lines 543-555, with the keys
in the order of the map literal (Go's json.Marshal emits exactly these
keys; their serialisation order is irrelevant to the claims). -/
def metricsObject (ms : MetricsSnapshot) : List (String × MetricValue) :=
  let rlTotal : Int := match ms.rateLimiter with | none => 0 | some rl => rl.1
  let rlBlocked : Int := match ms.rateLimiter with | none => 0 | some rl => rl.2
  [("total_requests", .int ms.totalRequests),
   ("blocked_requests", .int ms.blockedRequests),
   ("allowed_requests", .int ms.allowedRequests),
   ("rule_hits", .strMap ms.ruleHits),
   ("rule_hits_by_phase", .natMap ms.ruleHitsByPhase),
   ("geoip_blocked", .int ms.geoIPBlocked),
   ("ip_blacklist_hits", .int ms.ipBlacklistBlockCount),
   ("dns_blacklist_hits", .int ms.dnsBlacklistBlockCount),
   ("rate_limiter_requests", .int rlTotal),
   ("rate_limiter_blocked_requests", .int rlBlocked),
   ("version", .str "v0.0.8")]

/-- Rendering of one JSON value (model of encoding/json for the value
shapes above; the strings involved need no escaping). -/
def renderMetricValue : MetricValue → String
  | .int n => toString n
  | .str s => "\"" ++ s ++ "\""
  | .strMap m =>
    "\x7b" ++ String.intercalate ","
      (m.map (fun kv => "\"" ++ kv.1 ++ "\":" ++ toString kv.2)) ++ "\x7d"
  | .natMap m =>
    "\x7b" ++ String.intercalate ","
      (m.map (fun kv => "\"" ++ toString kv.1 ++ "\":" ++ toString kv.2)) ++ "\x7d"

/-- Rendering of the whole metrics JSON object. -/
def renderMetrics (obj : List (String × MetricValue)) : String :=
  "\x7b" ++ String.intercalate ","
    (obj.map (fun kv => "\"" ++ kv.1 ++ "\":" ++ renderMetricValue kv.2)) ++ "\x7d"

/-- src/caddywaf.go handleMetricsRequest, lines 527-570: set Content-Type
to application/json, build the metrics map, marshal it and write it (the
marshal of this map cannot fail, so the error branch is dead). -/
def handleMetricsRequest (ms : MetricsSnapshot) (w : HttpResponseWriter) :
    HttpResponseWriter :=
  let w1 := setHeader w "Content-Type" "application/json"
  writeBody w1 (renderMetrics (metricsObject ms))

/-! ## Anomaly threshold configuration (src/caddywaf.go, lines 67-95 and 162-168) -/

/-- src/caddywaf.go parseCaddyfile, lines 70-87, combined with the config
loader (modelled from the spec: ConfigLoader.UnmarshalCaddyfile is not
under src/): the middleware starts with AnomalyThreshold 5 and the
Caddyfile option, when present, overwrites it. -/
def parseCaddyfileThreshold (configured : Option Int) : Int :=
  match configured with
  | none => 5
  | some v => v

/-- src/caddywaf.go Provision, lines 162-168: a non-positive threshold is
replaced by the default 20. -/
def provisionThreshold (t : Int) : Int :=
  if t ≤ 0 then 20 else t

/-- The anomaly threshold in effect after parseCaddyfile and Provision. -/
def effectiveAnomalyThreshold (configured : Option Int) : Int :=
  provisionThreshold (parseCaddyfileThreshold configured)

/-! ## Helper lemmas about the response-writer model -/

theorem setHeader_status (w : HttpResponseWriter) (k v : String) :
    (setHeader w k v).status = w.status := rfl

theorem setHeader_sentHeaders (w : HttpResponseWriter) (k v : String) :
    (setHeader w k v).sentHeaders = w.sentHeaders := rfl

theorem setHeader_bodyBytes (w : HttpResponseWriter) (k v : String) :
    (setHeader w k v).bodyBytes = w.bodyBytes := rfl

theorem writeHeader_bodyBytes (w : HttpResponseWriter) (c : Nat) :
    (writeHeader w c).bodyBytes = w.bodyBytes := by
  unfold writeHeader
  cases w.status <;> rfl

theorem writeHeader_of_status_some (w : HttpResponseWriter) (c c0 : Nat)
    (h : w.status = some c0) : writeHeader w c = w := by
  unfold writeHeader
  rw [h]

theorem writeHeader_of_status_none (w : HttpResponseWriter) (c : Nat)
    (h : w.status = none) :
    writeHeader w c = { w with status := some c, sentHeaders := w.headers } := by
  unfold writeHeader
  rw [h]

theorem setHeaderFold_preserved (hs : List (String × String)) (w : HttpResponseWriter) :
    (hs.foldl (fun acc kv => setHeader acc kv.1 kv.2) w).status = w.status ∧
    (hs.foldl (fun acc kv => setHeader acc kv.1 kv.2) w).sentHeaders = w.sentHeaders ∧
    (hs.foldl (fun acc kv => setHeader acc kv.1 kv.2) w).bodyBytes = w.bodyBytes := by
  induction hs generalizing w with
  | nil => exact ⟨rfl, rfl, rfl⟩
  | cons h t ih => simpa using ih (setHeader w h.1 h.2)

theorem writeBody_bodyBytes (w : HttpResponseWriter) (s : String) :
    (writeBody w s).bodyBytes = w.bodyBytes ++ s := by
  show (writeHeader w 200).bodyBytes ++ s = w.bodyBytes ++ s
  rw [writeHeader_bodyBytes]

theorem writeBody_of_status_some (w : HttpResponseWriter) (s : String) (c0 : Nat)
    (h : w.status = some c0) :
    writeBody w s = { w with bodyBytes := w.bodyBytes ++ s } := by
  unfold writeBody
  rw [writeHeader_of_status_some w 200 c0 h]

/-! ## Claim C6 -/

/-- C6: After provisioning, the effective anomaly threshold equals the
configured value when it is positive, equals 20 when the configured value
is zero or negative, and defaults to 5 when the Caddyfile gives no
value. -/
theorem anomaly_threshold_effective :
    effectiveAnomalyThreshold none = 5 ∧
    (∀ v : Int, 0 < v → effectiveAnomalyThreshold (some v) = v) ∧
    (∀ v : Int, v ≤ 0 → effectiveAnomalyThreshold (some v) = 20) := by
  refine ⟨rfl, ?_, ?_⟩
  · intro v hv
    show provisionThreshold v = v
    unfold provisionThreshold
    rw [if_neg (by omega)]
  · intro v hv
    show provisionThreshold v = 20
    unfold provisionThreshold
    rw [if_pos hv]

/-- Witness for C6: the three regimes evaluated at 7, 0 and -1. -/
theorem anomaly_threshold_effective_witness :
    effectiveAnomalyThreshold none = 5 ∧
    effectiveAnomalyThreshold (some 7) = 7 ∧
    effectiveAnomalyThreshold (some 0) = 20 ∧
    effectiveAnomalyThreshold (some (-1)) = 20 :=
  ⟨anomaly_threshold_effective.1,
   anomaly_threshold_effective.2.1 7 (by decide),
   anomaly_threshold_effective.2.2 0 (by decide),
   anomaly_threshold_effective.2.2 (-1) (by decide)⟩

/-! ## Claim C8 -/

/-- C8: Every GET of the metrics endpoint answers with Content-Type
application/json, and the JSON object sent contains exactly the eleven
specified fields. -/
theorem metrics_endpoint_fields (ms : MetricsSnapshot) :
    (handleMetricsRequest ms newWriter).sentHeaders.lookup "Content-Type" =
      some "application/json" ∧
    (handleMetricsRequest ms newWriter).bodyBytes =
      renderMetrics (metricsObject ms) ∧
    (metricsObject ms).map Prod.fst =
      ["total_requests", "blocked_requests", "allowed_requests", "rule_hits",
       "rule_hits_by_phase", "geoip_blocked", "ip_blacklist_hits",
       "dns_blacklist_hits", "rate_limiter_requests",
       "rate_limiter_blocked_requests", "version"] :=
  ⟨rfl, rfl, rfl⟩

/-- Witness for C8 at an all-zero snapshot. -/
theorem metrics_endpoint_fields_witness :
    (handleMetricsRequest ⟨0, 0, 0, [], [], 0, 0, 0, none⟩ newWriter).sentHeaders.lookup
        "Content-Type" = some "application/json" ∧
    (handleMetricsRequest ⟨0, 0, 0, [], [], 0, 0, 0, none⟩ newWriter).bodyBytes =
      renderMetrics (metricsObject ⟨0, 0, 0, [], [], 0, 0, 0, none⟩) ∧
    (metricsObject ⟨0, 0, 0, [], [], 0, 0, 0, none⟩).map Prod.fst =
      ["total_requests", "blocked_requests", "allowed_requests", "rule_hits",
       "rule_hits_by_phase", "geoip_blocked", "ip_blacklist_hits",
       "dns_blacklist_hits", "rate_limiter_requests",
       "rate_limiter_blocked_requests", "version"] :=
  metrics_endpoint_fields ⟨0, 0, 0, [], [], 0, 0, 0, none⟩

/-! ## Claim C9 -/

/-- C9: fileExists evaluated over every stat outcome.  It returns false
for the empty path and for a not-exist error, and the negation of IsDir
on success; but when os.Stat fails for any other reason (for example
permission denied) the nil FileInfo is dereferenced — the `none` below is
the resulting Go panic, refuting totality. -/
theorem fileExists_eval :
    fileExists (fun _ => StatResult.errOther) "/locked/file" = none ∧
    fileExists (fun _ => StatResult.errNotExist) "/missing" = some false ∧
    fileExists (fun _ => StatResult.ok false) "/present" = some true ∧
    fileExists (fun _ => StatResult.ok true) "/somedir" = some false ∧
    fileExists (fun _ => StatResult.ok false) "" = some false :=
  ⟨rfl, rfl, rfl, rfl, rfl⟩

/-! ## Claim C4 -/

/-- C4: the IP blacklist conversion evaluated on a file holding a comment,
a blank line, an explicit CIDR line, a bare IPv4 and a bare IPv6 address.
The bare addresses are inserted as /32 and /64 as claimed, but the
explicit-prefix line "10.0.0.0/24" becomes "10.0.0.0/24/32" under
appendCIDR, fails netip.ParsePrefix, and is dropped — it is not inserted
with its own prefix as the claim states. -/
theorem ip_blacklist_loading_eval :
    loadIPBlacklistFromLines
        ["# comment", "", "10.0.0.0/24", "1.2.3.4", "2001:db8::1"] =
      [("1.2.3.4", 32), ("2001:db8::1", 64)] := by
  decide

/-! ## Claim C2 -/

/-- A middleware whose CustomResponses map is nil. -/
def noCustomMiddleware : Middleware :=
  { IPBlacklistFile := "", DNSBlacklistFile := "", AnomalyThreshold := 5,
    CustomResponses := none, ipBlacklist := [], dnsBlacklist := [] }

/-- Counterexample to C2: a call to blockRequest on a state whose
ResponseWritten flag is already true still writes — the response it was
handed gains the Content-Type header, a status write and the full default
body, refuting "writes nothing to the response". -/
theorem blockRequest_not_idempotent :
    (blockRequest noCustomMiddleware
        { TotalScore := 0, Blocked := true, StatusCode := 403, ResponseWritten := true }
        newWriter 403 "repeat").2.bodyBytes =
      "Request blocked by WAF. Reason: repeat" ∧
    (blockRequest noCustomMiddleware
        { TotalScore := 0, Blocked := true, StatusCode := 403, ResponseWritten := true }
        newWriter 403 "repeat").2 ≠ newWriter := by
  refine ⟨rfl, ?_⟩
  decide

/-- C2 amended: blockRequest never consults ResponseWritten; every call
sets the state flags and unconditionally appends the block body to the
response (on the default path), whatever the previous value of the
latch was. -/
theorem blockRequest_unconditional_write (m : Middleware) (s : WAFState)
    (w : HttpResponseWriter) (code : Nat) (reason : String)
    (h : m.CustomResponses = none) :
    (blockRequest m s w code reason).1.ResponseWritten = true ∧
    (blockRequest m s w code reason).1.Blocked = true ∧
    (blockRequest m s w code reason).1.StatusCode = code ∧
    (blockRequest m s w code reason).2.bodyBytes =
      w.bodyBytes ++ ("Request blocked by WAF. Reason: " ++ reason) := by
  unfold blockRequest
  rw [h]
  refine ⟨rfl, rfl, rfl, ?_⟩
  show (writeBody (writeHeader (setHeader w "Content-Type" "text/plain") code)
      ("Request blocked by WAF. Reason: " ++ reason)).bodyBytes = _
  rw [writeBody_bodyBytes, writeHeader_bodyBytes, setHeader_bodyBytes]

/-- Witness for C2 amended: applied to a state that is already
blocked-and-written. -/
theorem blockRequest_unconditional_write_witness :
    (blockRequest noCustomMiddleware
        { TotalScore := 0, Blocked := true, StatusCode := 403, ResponseWritten := true }
        newWriter 403 "x").1.ResponseWritten = true ∧
    (blockRequest noCustomMiddleware
        { TotalScore := 0, Blocked := true, StatusCode := 403, ResponseWritten := true }
        newWriter 403 "x").1.Blocked = true ∧
    (blockRequest noCustomMiddleware
        { TotalScore := 0, Blocked := true, StatusCode := 403, ResponseWritten := true }
        newWriter 403 "x").1.StatusCode = 403 ∧
    (blockRequest noCustomMiddleware
        { TotalScore := 0, Blocked := true, StatusCode := 403, ResponseWritten := true }
        newWriter 403 "x").2.bodyBytes =
      newWriter.bodyBytes ++ ("Request blocked by WAF. Reason: " ++ "x") :=
  blockRequest_unconditional_write noCustomMiddleware
    { TotalScore := 0, Blocked := true, StatusCode := 403, ResponseWritten := true }
    newWriter 403 "x" rfl

/-! ## Claim C3 -/

/-- The custom-responses configuration of spec scenario S5. -/
def s5Middleware : Middleware :=
  { IPBlacklistFile := "", DNSBlacklistFile := "", AnomalyThreshold := 5,
    CustomResponses :=
      some [(403, { StatusCode := 403, Headers := [("Retry-After", "60")],
                    Body := "Access Denied" })],
    ipBlacklist := [], dnsBlacklist := [] }

/-- Counterexample to C3, at the spec's own scenario S5: on a 403 block
the body is overridden, but the headers actually sent are the snapshot
taken by the default status write — Content-Type: text/plain and no
Retry-After — because blockRequest writes the default header and status
before consulting the custom_responses map.  The claim's "uses that
entry's ... headers ... instead of the default text/plain body ... and
default status write" is false. -/
theorem custom_response_override_counterexample :
    (blockRequest s5Middleware
        { TotalScore := 0, Blocked := false, StatusCode := 0, ResponseWritten := false }
        newWriter 403 "test").2.sentHeaders = [("Content-Type", "text/plain")] ∧
    ((blockRequest s5Middleware
        { TotalScore := 0, Blocked := false, StatusCode := 0, ResponseWritten := false }
        newWriter 403 "test").2.sentHeaders.lookup "Retry-After" = none) ∧
    (blockRequest s5Middleware
        { TotalScore := 0, Blocked := false, StatusCode := 0, ResponseWritten := false }
        newWriter 403 "test").2.bodyBytes = "Access Denied" := by
  decide

/-- C3 amended: when custom_responses holds an entry for the block status
code, the entry's body is written instead of the default body, but the
default write of Content-Type: text/plain and of the status happens
first, so the sent status is the block's own status code (the entry's
StatusCode write is superfluous) and the sent header block is the
snapshot taken at that default write — the entry's headers, set
afterwards, are not part of it. -/
theorem blockRequest_eq_custom (m : Middleware) (s : WAFState)
    (w : HttpResponseWriter) (code : Nat) (reason : String)
    (cr : List (Nat × CustomBlockResponse)) (hm : m.CustomResponses = some cr) :
    blockRequest m s w code reason =
      (blockRequestState code s,
        writeCustomResponse cr
          (writeHeader (setHeader w "Content-Type" "text/plain") code) code) := by
  unfold blockRequest
  rw [hm]
  rfl

theorem writeCustomResponse_eq (cr : List (Nat × CustomBlockResponse))
    (w : HttpResponseWriter) (code : Nat) (entry : CustomBlockResponse)
    (hlk : cr.lookup code = some entry) :
    writeCustomResponse cr w code =
      writeBody
        (writeHeader (entry.Headers.foldl (fun acc kv => setHeader acc kv.1 kv.2) w)
          entry.StatusCode)
        entry.Body := by
  unfold writeCustomResponse
  rw [hlk]

theorem custom_response_partial_override (m : Middleware) (s : WAFState)
    (w : HttpResponseWriter) (code : Nat) (reason : String)
    (cr : List (Nat × CustomBlockResponse)) (entry : CustomBlockResponse)
    (hm : m.CustomResponses = some cr)
    (hw : w.status = none)
    (hlk : cr.lookup code = some entry) :
    (blockRequest m s w code reason).2.bodyBytes = w.bodyBytes ++ entry.Body ∧
    (blockRequest m s w code reason).2.status = some code ∧
    (blockRequest m s w code reason).2.sentHeaders =
      (setHeader w "Content-Type" "text/plain").headers := by
  rw [blockRequest_eq_custom m s w code reason cr hm]
  set A := setHeader w "Content-Type" "text/plain" with hA
  have hst : A.status = none := by rw [hA, setHeader_status, hw]
  rw [writeCustomResponse_eq cr _ code entry hlk]
  rw [writeHeader_of_status_none A code hst]
  obtain ⟨hfs, hfh, hfb⟩ := setHeaderFold_preserved entry.Headers
    { A with status := some code, sentHeaders := A.headers }
  set F := entry.Headers.foldl (fun acc kv => setHeader acc kv.1 kv.2)
    { A with status := some code, sentHeaders := A.headers } with hF
  have hFs : F.status = some code := hfs
  rw [writeHeader_of_status_some F entry.StatusCode code hFs]
  rw [writeBody_of_status_some F entry.Body code hFs]
  refine ⟨?_, hFs, ?_⟩
  · show F.bodyBytes ++ entry.Body = w.bodyBytes ++ entry.Body
    rw [hfb]
    show A.bodyBytes ++ entry.Body = w.bodyBytes ++ entry.Body
    rw [hA, setHeader_bodyBytes]
  · show F.sentHeaders = A.headers
    rw [hfh]

/-- Witness for C3 amended, at the S5 configuration. -/
theorem custom_response_partial_override_witness :
    (blockRequest s5Middleware
        { TotalScore := 0, Blocked := false, StatusCode := 0, ResponseWritten := false }
        newWriter 403 "test").2.bodyBytes = newWriter.bodyBytes ++ "Access Denied" ∧
    (blockRequest s5Middleware
        { TotalScore := 0, Blocked := false, StatusCode := 0, ResponseWritten := false }
        newWriter 403 "test").2.status = some 403 ∧
    (blockRequest s5Middleware
        { TotalScore := 0, Blocked := false, StatusCode := 0, ResponseWritten := false }
        newWriter 403 "test").2.sentHeaders =
      (setHeader newWriter "Content-Type" "text/plain").headers :=
  custom_response_partial_override s5Middleware
    { TotalScore := 0, Blocked := false, StatusCode := 0, ResponseWritten := false }
    newWriter 403 "test"
    [(403, { StatusCode := 403, Headers := [("Retry-After", "60")],
             Body := "Access Denied" })]
    { StatusCode := 403, Headers := [("Retry-After", "60")], Body := "Access Denied" }
    rfl rfl (by decide)

/-! ## Claim C10 -/

/-- C10: responseRecorder.Write appends to the internal buffer only and
returns (len(b), nil); when no status was set before the first write, 200
is recorded and that WriteHeader is forwarded to the wrapped writer; and
StatusCode() is 200 exactly when no explicit status was recorded,
otherwise the recorded code. -/
theorem responseRecorder_write_contract (r : responseRecorder) (b : String) :
    (r.Write b).1.body = r.body ++ b ∧
    (r.Write b).2 = (b.data.length, none) ∧
    (r.Write b).1.wrapped.bodyBytes = r.wrapped.bodyBytes ∧
    (r.statusCode = 0 → r.written = false →
      (r.Write b).1.statusCode = 200 ∧
      (r.Write b).1.wrapped = writeHeader r.wrapped 200) ∧
    (r.statusCode = 0 → r.StatusCode = 200) ∧
    (r.statusCode ≠ 0 → r.StatusCode = r.statusCode) := by
  unfold responseRecorder.Write
  by_cases h : r.statusCode = 0 ∧ r.written = false
  · rw [if_pos h]
    refine ⟨rfl, ?_, ?_, ?_, ?_, ?_⟩
    · show (b.data.length, (none : Option String)) = (b.data.length, none)
      rfl
    · show (writeHeader r.wrapped 200).bodyBytes = r.wrapped.bodyBytes
      rw [writeHeader_bodyBytes]
    · intro _ _
      exact ⟨rfl, rfl⟩
    · intro h0
      unfold responseRecorder.StatusCode
      rw [if_pos h0]
    · intro h0
      exact absurd h.1 h0
  · rw [if_neg h]
    refine ⟨rfl, rfl, rfl, ?_, ?_, ?_⟩
    · intro h0 h1
      exact absurd ⟨h0, h1⟩ h
    · intro h0
      unfold responseRecorder.StatusCode
      rw [if_pos h0]
    · intro h0
      unfold responseRecorder.StatusCode
      rw [if_neg h0]

/-- Witness for C10: a fresh recorder receiving its first write. -/
theorem responseRecorder_write_contract_witness :
    ((NewResponseRecorder newWriter).Write "hi").1.body =
      (NewResponseRecorder newWriter).body ++ "hi" ∧
    ((NewResponseRecorder newWriter).Write "hi").2 = (2, none) ∧
    ((NewResponseRecorder newWriter).Write "hi").1.statusCode = 200 ∧
    ((NewResponseRecorder newWriter).Write "hi").1.wrapped =
      writeHeader (NewResponseRecorder newWriter).wrapped 200 ∧
    (NewResponseRecorder newWriter).StatusCode = 200 :=
  ⟨(responseRecorder_write_contract (NewResponseRecorder newWriter) "hi").1,
   (responseRecorder_write_contract (NewResponseRecorder newWriter) "hi").2.1,
   ((responseRecorder_write_contract (NewResponseRecorder newWriter) "hi").2.2.2.1
      rfl rfl).1,
   ((responseRecorder_write_contract (NewResponseRecorder newWriter) "hi").2.2.2.1
      rfl rfl).2,
   (responseRecorder_write_contract (NewResponseRecorder newWriter) "hi").2.2.2.2.1 rfl⟩

/-! ## Claim C5 -/

/-- The middleware and environment of the C5 counterexample: both
blacklist files are configured, the IP file loads successfully with new
content, and the DNS file fails to read. -/
def c5Middleware : Middleware :=
  { IPBlacklistFile := "ip.txt", DNSBlacklistFile := "dns.txt", AnomalyThreshold := 5,
    CustomResponses := none, ipBlacklist := [("9.9.9.9", 32)],
    dnsBlacklist := ["old.example"] }

def c5Env : ReloadEnv :=
  { ipFile := .avail ["1.2.3.4"], dnsFile := .readError "io error", rulesError := none }

/-- Counterexample to C5: this ReloadConfig invocation fails (the DNS
blacklist load errors), yet the installed IP blacklist is not the
previous generation — it was already swapped before the failure. -/
theorem reload_partial_swap_counterexample :
    ((ReloadConfig c5Middleware c5Env).2).isSome = true ∧
    (ReloadConfig c5Middleware c5Env).1.ipBlacklist ≠ c5Middleware.ipBlacklist := by
  decide

/-- C5 amended: a failing IP blacklist load leaves the whole middleware
untouched; a failing DNS blacklist load leaves the DNS set untouched but
an IP load that succeeded earlier in the same call has already been
swapped in; and on overall success each installed structure is exactly
the one fully built from its file. -/
theorem reload_config_failure_semantics (m : Middleware) (env : ReloadEnv) :
    (∀ e, env.ipFile = .readError e → m.IPBlacklistFile ≠ "" →
      (ReloadConfig m env).1 = m ∧ (ReloadConfig m env).2.isSome = true) ∧
    (∀ e, env.dnsFile = .readError e →
      (ReloadConfig m env).1.dnsBlacklist = m.dnsBlacklist) ∧
    (∀ e t, env.dnsFile = .readError e → m.IPBlacklistFile ≠ "" →
      m.DNSBlacklistFile ≠ "" →
      loadIPBlacklistGo env.ipFile = .ok t →
      (ReloadConfig m env).1.ipBlacklist = t ∧ (ReloadConfig m env).2.isSome = true) ∧
    ((ReloadConfig m env).2 = none → m.IPBlacklistFile ≠ "" →
      Except.ok (ReloadConfig m env).1.ipBlacklist = loadIPBlacklistGo env.ipFile) ∧
    ((ReloadConfig m env).2 = none → m.DNSBlacklistFile ≠ "" →
      Except.ok (ReloadConfig m env).1.dnsBlacklist = loadDNSBlacklistGo env.dnsFile) := by
  obtain ⟨ipf, dnsf, rerr⟩ := env
  by_cases h1 : m.IPBlacklistFile = "" <;> by_cases h2 : m.DNSBlacklistFile = "" <;>
    cases ipf <;> cases dnsf <;> cases rerr <;>
      simp_all [ReloadConfig, loadIPBlacklistGo, loadDNSBlacklistGo]

/-- Witness for C5 amended, at the counterexample's configuration. -/
theorem reload_config_failure_semantics_witness :
    (ReloadConfig c5Middleware c5Env).1.ipBlacklist = [("1.2.3.4", 32)] ∧
    (ReloadConfig c5Middleware c5Env).2.isSome = true ∧
    (ReloadConfig c5Middleware c5Env).1.dnsBlacklist = c5Middleware.dnsBlacklist :=
  ⟨((reload_config_failure_semantics c5Middleware c5Env).2.2.1 "io error"
      [("1.2.3.4", 32)] rfl (by decide) (by decide) rfl).1,
   ((reload_config_failure_semantics c5Middleware c5Env).2.2.1 "io error"
      [("1.2.3.4", 32)] rfl (by decide) (by decide) rfl).2,
   (reload_config_failure_semantics c5Middleware c5Env).2.1 "io error" rfl⟩

/-! ## Claim C1 -/

theorem engineTrace_all_blocked (ds : List (WAFState → Option Nat)) (s : WAFState)
    (h : s.Blocked = true) :
    ∀ t ∈ engineTrace ds s, t.Blocked = true := by
  induction ds generalizing s with
  | nil =>
    intro t ht
    have : t = finishRequest s := by simpa [engineTrace] using ht
    subst this
    simp [finishRequest, h]
  | cons d rest ih =>
    intro t ht
    have hstep : (phaseStep d s).Blocked = true := by simp [phaseStep, h]
    rw [engineTrace] at ht
    rcases List.mem_cons.mp ht with h1 | h1
    · subst h1
      exact hstep
    · exact ih (phaseStep d s) hstep t h1

theorem engineTrace_blocked_pairwise (ds : List (WAFState → Option Nat))
    (s : WAFState) :
    (engineTrace ds s).Pairwise (fun a b => a.Blocked = true → b.Blocked = true) := by
  induction ds generalizing s with
  | nil => simp [engineTrace]
  | cons d rest ih =>
    rw [engineTrace]
    refine List.Pairwise.cons ?_ (ih (phaseStep d s))
    intro b hb hblk
    exact engineTrace_all_blocked rest (phaseStep d s) hblk b hb

/-- C1: over the state sequence produced by the engine operations of one
request (phase steps, then the terminal allow/keep step), Blocked is a
latch: if it is true at position i, it is still true at every later
position j.  In particular the final allowRequest never resets it, since
it only runs on an unblocked state. -/
theorem waf_blocked_is_latch (ds : List (WAFState → Option Nat)) (s0 : WAFState)
    (i j : Nat) (hj : j < (engineTrace ds s0).length) (hij : i ≤ j)
    (hb : ((engineTrace ds s0).get ⟨i, Nat.lt_of_le_of_lt hij hj⟩).Blocked = true) :
    ((engineTrace ds s0).get ⟨j, hj⟩).Blocked = true := by
  rcases Nat.lt_or_ge i j with hlt | hge
  · exact List.pairwise_iff_get.mp (engineTrace_blocked_pairwise ds s0)
      ⟨i, Nat.lt_of_le_of_lt hij hj⟩ ⟨j, hj⟩ hlt hb
  · have hij' : i = j := Nat.le_antisymm hij hge
    subst hij'
    exact hb

/-- Witness for C1: a request whose first phase blocks with 403; the
state after the second phase and after the terminal step is still
blocked. -/
theorem waf_blocked_is_latch_witness :
    ((engineTrace [fun _ => some 403, fun _ => none]
        { TotalScore := 0, Blocked := false, StatusCode := 0,
          ResponseWritten := false }).get ⟨2, by decide⟩).Blocked = true :=
  waf_blocked_is_latch [fun _ => some 403, fun _ => none]
    { TotalScore := 0, Blocked := false, StatusCode := 0, ResponseWritten := false }
    0 2 (by decide) (by decide) (by decide)

/-! ## Claim C7 -/

/-- Counterexample to C7: loading two rules with distinct IDs "a" and "b"
but the identical pattern "p" from an empty cache assigns them distinct
compiled-regex objects (allocation indices 0 and 1) — they do not
reference the same Rule Cache entry. -/
theorem rule_cache_no_pattern_sharing :
    ((loadRulesModel [("a", "p"), ("b", "p")] ⟨[], 0⟩).1.map LoadedRule.pattern =
      ["p", "p"]) ∧
    ((loadRulesModel [("a", "p"), ("b", "p")] ⟨[], 0⟩).1.map LoadedRule.regex =
      [0, 1]) := by
  decide


theorem assocFind_filter_ne (l : List (String × Nat)) (k k' : String)
    (h : ¬ k' = k) :
    assocFind (l.filter (fun kv => kv.1 ≠ k)) k' = assocFind l k' := by
  induction l with
  | nil => rfl
  | cons hd t ih =>
    rw [List.filter_cons]
    by_cases hhd : hd.1 = k
    · rw [if_neg (by simp [hhd])]
      rw [ih]
      rw [assocFind]
      have hne : ¬ hd.1 = k' := by
        intro hq
        exact h (hq ▸ hhd)
      rw [if_neg hne]
    · rw [if_pos (by simp [hhd])]
      rw [assocFind, assocFind]
      by_cases hq : hd.1 = k'
      · rw [if_pos hq, if_pos hq]
      · rw [if_neg hq, if_neg hq]
        exact ih

theorem assocFind_filter_self (l : List (String × Nat)) (k : String) :
    assocFind (l.filter (fun kv => kv.1 ≠ k)) k = none := by
  induction l with
  | nil => rfl
  | cons hd t ih =>
    rw [List.filter_cons]
    by_cases hhd : hd.1 = k
    · rw [if_neg (by simp [hhd])]
      exact ih
    · rw [if_pos (by simp [hhd])]
      rw [assocFind]
      rw [if_neg hhd]
      exact ih

theorem assocFind_append_none (l1 l2 : List (String × Nat)) (k : String)
    (h : assocFind l1 k = none) : assocFind (l1 ++ l2) k = assocFind l2 k := by
  induction l1 with
  | nil => rfl
  | cons hd t ih =>
    rw [assocFind] at h
    rw [List.cons_append, assocFind]
    by_cases hq : hd.1 = k
    · rw [if_pos hq] at h
      cases h
    · rw [if_neg hq] at h
      rw [if_neg hq]
      exact ih h

theorem assocFind_append_some (l1 l2 : List (String × Nat)) (k : String) (v : Nat)
    (h : assocFind l1 k = some v) : assocFind (l1 ++ l2) k = some v := by
  induction l1 with
  | nil => cases h
  | cons hd t ih =>
    rw [assocFind] at h
    rw [List.cons_append, assocFind]
    by_cases hq : hd.1 = k
    · rw [if_pos hq] at h
      rw [if_pos hq]
      exact h
    · rw [if_neg hq] at h
      rw [if_neg hq]
      exact ih h

theorem ruleCacheGet_set (c : RuleCacheState) (k k' : String) (v : Nat) :
    ruleCacheGet (ruleCacheSet c k v) k' =
      if k' = k then some v else ruleCacheGet c k' := by
  unfold ruleCacheGet ruleCacheSet
  by_cases h : k' = k
  · rw [if_pos h]
    subst h
    rw [assocFind_append_none _ _ k' (assocFind_filter_self c.entries k')]
    rw [assocFind]
    rw [if_pos rfl]
  · rw [if_neg h]
    rw [← assocFind_filter_ne c.entries k k' h]
    cases hlk : assocFind (c.entries.filter (fun kv => kv.1 ≠ k)) k' with
    | some v' =>
      rw [assocFind_append_some _ _ k' v' hlk]
    | none =>
      rw [assocFind_append_none _ _ k' hlk]
      rw [assocFind]
      rw [if_neg (fun hq => h hq.symm)]
      rfl

theorem loadRulesModel_preserves_get (rules : List (String × String))
    (c : RuleCacheState) (k : String) (v : Nat)
    (h : ruleCacheGet c k = some v) :
    ruleCacheGet (loadRulesModel rules c).2 k = some v := by
  induction rules generalizing c with
  | nil => exact h
  | cons hd rest ih =>
    obtain ⟨rid, pat⟩ := hd
    cases hget : ruleCacheGet c rid with
    | some r =>
      simp only [loadRulesModel, hget]
      exact ih c h
    | none =>
      simp only [loadRulesModel, hget]
      apply ih
      rw [ruleCacheGet_set]
      by_cases hk : k = rid
      · exfalso
        subst hk
        rw [h] at hget
        cases hget
      · rw [if_neg hk]
        exact h

theorem loadRulesModel_out_get (rules : List (String × String))
    (c : RuleCacheState) (lr : LoadedRule)
    (h : lr ∈ (loadRulesModel rules c).1) :
    ruleCacheGet (loadRulesModel rules c).2 lr.id = some lr.regex := by
  induction rules generalizing c with
  | nil => simp [loadRulesModel] at h
  | cons hd rest ih =>
    obtain ⟨rid, pat⟩ := hd
    cases hget : ruleCacheGet c rid with
    | some r =>
      simp only [loadRulesModel, hget] at h ⊢
      rcases List.mem_cons.mp h with h1 | h1
      · subst h1
        exact loadRulesModel_preserves_get rest c rid r hget
      · exact ih c h1
    | none =>
      simp only [loadRulesModel, hget] at h ⊢
      rcases List.mem_cons.mp h with h1 | h1
      · subst h1
        apply loadRulesModel_preserves_get
        rw [ruleCacheGet_set]
        rw [if_pos rfl]
      · exact ih _ h1

/-- C7 amended: the Rule Cache is keyed by rule ID, so two loaded rules
reference the same compiled-regex cache entry whenever their rule IDs are
equal (also across reloads, via the starting cache state); identical
patterns under distinct IDs are compiled into distinct entries, as the
counterexample shows. -/
theorem rule_cache_shared_by_id (rules : List (String × String))
    (c : RuleCacheState) (r1 r2 : LoadedRule)
    (h1 : r1 ∈ (loadRulesModel rules c).1) (h2 : r2 ∈ (loadRulesModel rules c).1)
    (hid : r1.id = r2.id) : r1.regex = r2.regex := by
  have g1 := loadRulesModel_out_get rules c r1 h1
  have g2 := loadRulesModel_out_get rules c r2 h2
  rw [hid] at g1
  rw [g1] at g2
  exact Option.some.inj g2

/-- Witness for C7 amended: two occurrences of rule ID "a" — with
different pattern sources — share the compiled entry 0. -/
theorem rule_cache_shared_by_id_witness :
    (⟨"a", "p", 0⟩ : LoadedRule).regex = (⟨"a", "q", 0⟩ : LoadedRule).regex :=
  rule_cache_shared_by_id [("a", "p"), ("a", "q")] ⟨[], 0⟩
    ⟨"a", "p", 0⟩ ⟨"a", "q", 0⟩ (by decide) (by decide) rfl
